import Mathlib

/-!
Shallow embedding of the retrieval pipeline in `search_service.py`
(classes `Config`, `SearchClient`, `ContentExtractor`, `LLMFilter`,
`ContentSearchService`).

Network effects are modelled by explicit fetcher parameters:
* a primary-backend fetcher `String → Option (List SearchHit)` mapping a
  full search-query string to the parsed `results` array (`none` models any
  exception inside the `try` block of `SearchClient.search`: network error,
  non-2xx status raised by `raise_for_status`, malformed JSON body);
* a Serper fetcher `String → Option (List SerperItem)` for the parsed
  `organic` array of `SearchClient.search_serper`;
* a page fetcher `String → Option (List String)` mapping a URL to the list
  of `get_text(strip=True)`-less raw paragraph texts of the page's `<p>`
  elements (`none` models any fetch/parse exception in
  `ContentExtractor.extract_paragraphs`);
* a judge `String → List RelevantResult → Option (List RelevantResult)`
  for the LLM call of `LLMFilter.filter_relevant` (`none` models any
  exception of that call).

Python dicts with possibly-missing string keys are modelled with
`Option String` fields (`none` = key missing).  The `extracted_content`
key is modelled as `Option (Option String)`: the outer `none` is a missing
key and `some none` is a stored Python `None`, matching the distinction
`result.get('extracted_content')` makes.
-/

namespace Config

/-- `Config.MIN_PARAGRAPH_LENGTH` in `search_service.py`. -/
def MIN_PARAGRAPH_LENGTH : Nat := 50

/-- `Config.MAX_RELEVANT_RESULTS` in `search_service.py`. -/
def MAX_RELEVANT_RESULTS : Nat := 10

end Config

/-- A raw hit dict flowing through the pipeline.  Fields are `Option`s
because the Python dicts may lack keys; `extracted_content` distinguishes
a missing key (`none`) from a stored `None` (`some none`). -/
structure SearchHit where
  title : Option String := none
  url : Option String := none
  snippet : Option String := none
  extracted_content : Option (Option String) := none
deriving DecidableEq

/-- One entry of the Serper `organic` array (`title`, `link`, `snippet`
keys, any of which may be missing). -/
structure SerperItem where
  title : Option String := none
  link : Option String := none
  snippet : Option String := none
deriving DecidableEq

/-- The pydantic `RelevantResult` model (`title`, `url` both required
strings); also the shape of the minimal `{title, url}` dicts built by
`LLMFilter.filter_relevant`. -/
structure RelevantResult where
  title : String
  url : String
deriving DecidableEq

/-- Python truthiness of `d.get(key)` for a string-valued key: the key is
present and its value is a non-empty string. -/
def truthy : Option String → Bool
  | none => false
  | some s => s != ""

/-- Python whitespace stripping (`str.strip()`, and the per-paragraph
stripping done by `get_text(strip=True)`): drop whitespace characters
from both ends of the string. -/
def pyStrip (s : String) : String :=
  String.mk
    (((s.data.dropWhile Char.isWhitespace).reverse.dropWhile
      Char.isWhitespace).reverse)

/-- The search-query string built by both backends:
`f"{query} site:{source.strip()}" if source else query`. -/
def searchQuery (query source : String) : String :=
  if source = "" then query else query ++ " site:" ++ pyStrip source

/-- `sources or [""]`: an empty (or absent) source list is replaced by a
single unscoped request. -/
def effSources (sources : List String) : List String :=
  if sources.isEmpty then [""] else sources

namespace SearchClient

/-- `SearchClient.search`: one request per effective source; a failing
request (`none`) is skipped, a succeeding one contributes its `results`
array, appended in order. -/
def search (pf : String → Option (List SearchHit)) (query : String)
    (sources : List String) : List SearchHit :=
  (effSources sources).foldl
    (fun acc s =>
      match pf (searchQuery query s) with
      | some hs => acc ++ hs
      | none => acc)
    []

/-- Normalization of one Serper `organic` item inside
`SearchClient.search_serper`: `item.get("title", "")`,
`item.get("link", "")`, `item.get("snippet", "")`. -/
def serperToHit (item : SerperItem) : SearchHit :=
  { title := some (item.title.getD "")
    url := some (item.link.getD "")
    snippet := some (item.snippet.getD "") }

/-- `SearchClient.search_serper`: one request per effective source; a
failing request is skipped, a succeeding one contributes its normalized
`organic` items, appended in order. -/
def search_serper (sf : String → Option (List SerperItem)) (query : String)
    (sources : List String) : List SearchHit :=
  (effSources sources).foldl
    (fun acc s =>
      match sf (searchQuery query s) with
      | some items => acc ++ items.map serperToHit
      | none => acc)
    []

end SearchClient

namespace ContentExtractor

/-- `ContentExtractor.extract_paragraphs`: on a fetch/parse failure return
`""`; on success trim each paragraph text, keep only those whose trimmed
length strictly exceeds `Config.MIN_PARAGRAPH_LENGTH`, and join with a
blank line. -/
def extract_paragraphs (fetch : String → Option (List String))
    (url : String) : String :=
  match fetch url with
  | none => ""
  | some ps =>
      String.intercalate "\n\n"
        ((ps.map pyStrip).filter
          (fun s => Config.MIN_PARAGRAPH_LENGTH < s.length))

end ContentExtractor

namespace LLMFilter

/-- The minimal `{title, url}` projection built at the top of
`LLMFilter.filter_relevant`: keep a hit only when both `result.get('title')`
and `result.get('url')` are truthy, then project to those two keys. -/
def minimalResults (results : List SearchHit) : List RelevantResult :=
  (results.filter (fun r => truthy r.title && truthy r.url)).map
    (fun r => ⟨r.title.getD "", r.url.getD ""⟩)

/-- Conversion of a `RelevantResult` back to a two-key hit dict, as done
both for the parsed judge output and (trivially) for the degraded return
of the minimal list. -/
def relevantToHit (r : RelevantResult) : SearchHit :=
  { title := some r.title, url := some r.url }

/-- `LLMFilter.filter_relevant`: build the minimal projection, send it to
the judge; on success return the parsed results as two-key dicts, on any
judge failure return the minimal projection itself. -/
def filter_relevant
    (judge : String → List RelevantResult → Option (List RelevantResult))
    (topic : String) (results : List SearchHit) : List SearchHit :=
  let minimal := minimalResults results
  match judge topic minimal with
  | some parsed => parsed.map relevantToHit
  | none => minimal.map relevantToHit

end LLMFilter

namespace ContentSearchService

/-- Step 1 of `search_and_extract`: aggregate the primary backend across
all queries. -/
def primaryResults (pf : String → Option (List SearchHit))
    (queries sources : List String) : List SearchHit :=
  queries.foldl (fun acc q => acc ++ SearchClient.search pf q sources) []

/-- The Serper backup aggregation of `search_and_extract`: one
`search_serper` call per query, concatenated. -/
def backupResults (sf : String → Option (List SerperItem))
    (queries sources : List String) : List SearchHit :=
  queries.foldl (fun acc q => acc ++ SearchClient.search_serper sf q sources) []

/-- Steps 1–2 of `search_and_extract`: the primary aggregate, replaced by
the Serper backup aggregate when (and only when) it is empty. -/
def searchPhase (pf : String → Option (List SearchHit))
    (sf : String → Option (List SerperItem))
    (queries sources : List String) : List SearchHit :=
  let allResults := primaryResults pf queries sources
  if allResults.isEmpty then backupResults sf queries sources else allResults

/-- The aggregate primary hit count over all (query, domain) pairs: each
pair contributes the length of its `results` array, and a failed request
contributes nothing. -/
def aggregatePrimaryHits (pf : String → Option (List SearchHit))
    (queries sources : List String) : Nat :=
  (queries.map (fun q =>
    ((effSources sources).map (fun s =>
      match pf (searchQuery q s) with
      | some hs => hs.length
      | none => 0)).sum)).sum

/-- Step 3 of `search_and_extract`: for each filtered hit, extract from
`result.get("url", "")` and store the string under the
`extracted_content` key, leaving the other keys unchanged. -/
def extractLoop (fetch : String → Option (List String))
    (hits : List SearchHit) : List SearchHit :=
  hits.map (fun r =>
    let content := ContentExtractor.extract_paragraphs fetch (r.url.getD "")
    { r with extracted_content := some (some content) })

/-- The three header lines of `_format_markdown`; the topic line applies
Python truthiness (`topic or 'Not specified'`). -/
def headerLines (topic : String) : List String :=
  ["# Search and Extracted Content\n",
   "**Topic:** " ++ (if topic = "" then "Not specified" else topic) ++ "\n",
   "## Relevant Search Results\n"]

/-- The fenced-block content of one section:
`result.get('extracted_content') or "No content extracted."`. -/
def displayContent (r : SearchHit) : String :=
  match r.extracted_content with
  | some (some s) => if s = "" then "No content extracted." else s
  | _ => "No content extracted."

/-- The three lines appended for the `i`-th (1-based) result in
`_format_markdown`. -/
def sectionLines (i : Nat) (r : SearchHit) : List String :=
  ["### Result " ++ toString i ++ ": [" ++ r.title.getD "No Title" ++ "](" ++
     r.url.getD "#" ++ ")\n",
   "**Extracted Content:**\n",
   "```\n" ++ displayContent r ++ "\n```\n"]

/-- `ContentSearchService._format_markdown`: header lines, then either the
no-results sentinel or three lines per enumerated result, joined by
newlines. -/
def format_markdown (topic : String) (results : List SearchHit) : String :=
  let lines := headerLines topic
  if results.isEmpty then
    String.intercalate "\n" (lines ++ ["No relevant results found."])
  else
    String.intercalate "\n"
      ((results.enumFrom 1).foldl
        (fun acc p => acc ++ sectionLines p.1 p.2) lines)

/-- `ContentSearchService.search_and_extract`: search (with pipeline-wide
fallback), filter, extract, format. -/
def search_and_extract (pf : String → Option (List SearchHit))
    (sf : String → Option (List SerperItem))
    (judge : String → List RelevantResult → Option (List RelevantResult))
    (fetch : String → Option (List String))
    (queries sources : List String) (topic : String) : String :=
  format_markdown topic
    (extractLoop fetch
      (LLMFilter.filter_relevant judge topic (searchPhase pf sf queries sources)))

end ContentSearchService

/-! ### Helper lemmas -/

theorem foldl_append_flatten {α β : Type} (f : α → List β) (l : List α)
    (acc : List β) :
    l.foldl (fun a x => a ++ f x) acc = acc ++ (l.map f).flatten := by
  induction l generalizing acc with
  | nil => simp
  | cons x xs ih => simp [ih, List.append_assoc]

theorem search_eq_flatten (pf : String → Option (List SearchHit))
    (query : String) (sources : List String) :
    SearchClient.search pf query sources =
      ((effSources sources).map
        (fun s => (pf (searchQuery query s)).getD [])).flatten := by
  unfold SearchClient.search
  have h : (fun (acc : List SearchHit) s =>
      match pf (searchQuery query s) with
      | some hs => acc ++ hs
      | none => acc) =
      fun acc s => acc ++ (pf (searchQuery query s)).getD [] := by
    funext acc s
    cases pf (searchQuery query s) <;> simp
  rw [h, foldl_append_flatten]
  simp

theorem search_serper_eq_flatten (sf : String → Option (List SerperItem))
    (query : String) (sources : List String) :
    SearchClient.search_serper sf query sources =
      ((effSources sources).map
        (fun s => ((sf (searchQuery query s)).getD []).map
          SearchClient.serperToHit)).flatten := by
  unfold SearchClient.search_serper
  have h : (fun (acc : List SearchHit) s =>
      match sf (searchQuery query s) with
      | some items => acc ++ items.map SearchClient.serperToHit
      | none => acc) =
      fun acc s =>
        acc ++ ((sf (searchQuery query s)).getD []).map SearchClient.serperToHit := by
    funext acc s
    cases sf (searchQuery query s) <;> simp
  rw [h, foldl_append_flatten]
  simp

theorem primaryResults_eq_flatten (pf : String → Option (List SearchHit))
    (queries sources : List String) :
    ContentSearchService.primaryResults pf queries sources =
      (queries.map (fun q => SearchClient.search pf q sources)).flatten := by
  unfold ContentSearchService.primaryResults
  rw [foldl_append_flatten]
  simp

theorem backupResults_eq_flatten (sf : String → Option (List SerperItem))
    (queries sources : List String) :
    ContentSearchService.backupResults sf queries sources =
      (queries.map (fun q => SearchClient.search_serper sf q sources)).flatten := by
  unfold ContentSearchService.backupResults
  rw [foldl_append_flatten]
  simp

theorem primaryResults_length (pf : String → Option (List SearchHit))
    (queries sources : List String) :
    (ContentSearchService.primaryResults pf queries sources).length =
      ContentSearchService.aggregatePrimaryHits pf queries sources := by
  unfold ContentSearchService.aggregatePrimaryHits
  rw [primaryResults_eq_flatten, List.length_flatten, List.map_map]
  have hq : (List.length ∘ fun q => SearchClient.search pf q sources) =
      fun q => ((effSources sources).map (fun s =>
        match pf (searchQuery q s) with
        | some hs => hs.length
        | none => 0)).sum := by
    funext q
    simp only [Function.comp_apply]
    rw [search_eq_flatten, List.length_flatten, List.map_map]
    have hs2 : (List.length ∘ fun s => (pf (searchQuery q s)).getD []) =
        fun s =>
          match pf (searchQuery q s) with
          | some hs => hs.length
          | none => 0 := by
      funext s
      cases h : pf (searchQuery q s) <;> simp [h]
    rw [hs2]
  rw [hq]

/-! ### Claim theorems -/

/-- C8: `SearchClient.search` never raises (it is a total function of its
fetcher); a failure of one per-domain request is skipped without aborting
the remaining domains, and the method returns the concatenation, in
domain order, of the hits obtained from the domains that succeeded (a
failed domain contributes `[]`), possibly the empty list. -/
theorem c8_search_skips_failed_domains (pf : String → Option (List SearchHit))
    (query : String) (sources : List String) :
    SearchClient.search pf query sources =
      ((effSources sources).map
        (fun s => (pf (searchQuery query s)).getD [])).flatten :=
  search_eq_flatten pf query sources

/-- C1: in `ContentSearchService.search_and_extract`, the Serper fallback
results are used if and only if the aggregate primary hit count over all
(query, domain) pairs is exactly zero; when used they entirely replace the
primary's empty aggregate (no merging), and a single primary hit anywhere
makes the result exactly the primary aggregate; the fallback aggregate is
one `search_serper` call per query, each over all domains, concatenated. -/
theorem c1_fallback_iff_aggregate_zero (pf : String → Option (List SearchHit))
    (sf : String → Option (List SerperItem)) (queries sources : List String) :
    (ContentSearchService.searchPhase pf sf queries sources =
      if ContentSearchService.aggregatePrimaryHits pf queries sources = 0
      then ContentSearchService.backupResults sf queries sources
      else ContentSearchService.primaryResults pf queries sources) ∧
    ContentSearchService.backupResults sf queries sources =
      (queries.map (fun q => SearchClient.search_serper sf q sources)).flatten := by
  constructor
  · unfold ContentSearchService.searchPhase
    have hlen := primaryResults_length pf queries sources
    by_cases h : ContentSearchService.aggregatePrimaryHits pf queries sources = 0
    · have he : ContentSearchService.primaryResults pf queries sources = [] := by
        have : (ContentSearchService.primaryResults pf queries sources).length = 0 := by
          rw [hlen]; exact h
        exact List.length_eq_zero.mp this
      simp [he, h]
    · have he : ContentSearchService.primaryResults pf queries sources ≠ [] := by
        intro hnil
        apply h
        rw [← hlen, hnil]
        rfl
      simp [he, h, List.isEmpty_iff]
  · exact backupResults_eq_flatten sf queries sources

/-- C4: `ContentExtractor.extract_paragraphs` never raises (it is a total
function); it returns `""` when the fetch/parse fails and when the page
has no paragraph whose stripped text exceeds the length threshold; and a
hit whose extraction failed is still retained by the extraction loop of
`search_and_extract` (the loop preserves the number of hits). -/
theorem c4_extract_failure_empty (fetch : String → Option (List String))
    (url : String) :
    (fetch url = none → ContentExtractor.extract_paragraphs fetch url = "") ∧
    (∀ ps, fetch url = some ps →
      (ps.map pyStrip).filter
        (fun s => Config.MIN_PARAGRAPH_LENGTH < s.length) = [] →
      ContentExtractor.extract_paragraphs fetch url = "") ∧
    (∀ hits : List SearchHit,
      (ContentSearchService.extractLoop fetch hits).length = hits.length) := by
  refine ⟨fun h => ?_, fun ps hps hfil => ?_, fun hits => ?_⟩
  · simp [ContentExtractor.extract_paragraphs, h]
  · simp only [ContentExtractor.extract_paragraphs, hps]
    rw [hfil]
    rfl
  · simp [ContentSearchService.extractLoop]

/-- Witness for C4 at concrete inputs: a failing fetcher, a page whose
paragraphs are all at or below the threshold, and a one-hit extraction
loop. -/
theorem c4_extract_failure_empty_witness :
    ContentExtractor.extract_paragraphs (fun _ => none) "http://x" = "" ∧
    ContentExtractor.extract_paragraphs
      (fun _ => some ["  a short paragraph  ", ""]) "http://x" = "" ∧
    (ContentSearchService.extractLoop (fun _ => none)
      [⟨some "t", some "u", none, none⟩]).length = 1 :=
  ⟨(c4_extract_failure_empty (fun _ => none) "http://x").1 rfl,
   (c4_extract_failure_empty (fun _ => some ["  a short paragraph  ", ""])
      "http://x").2.1 ["  a short paragraph  ", ""] rfl (by decide),
   (c4_extract_failure_empty (fun _ => none) "http://x").2.2
      [⟨some "t", some "u", none, none⟩]⟩

/-- C7: on a successful fetch and parse, `extract_paragraphs` returns
exactly the stripped paragraph texts whose length strictly exceeds the
minimum threshold, in document order, joined with a blank line; the
threshold `Config.MIN_PARAGRAPH_LENGTH` is 50. -/
theorem c7_extract_success (fetch : String → Option (List String))
    (url : String) (ps : List String) (h : fetch url = some ps) :
    ContentExtractor.extract_paragraphs fetch url =
      String.intercalate "\n\n"
        ((ps.map pyStrip).filter
          (fun s => Config.MIN_PARAGRAPH_LENGTH < s.length)) ∧
    Config.MIN_PARAGRAPH_LENGTH = 50 := by
  constructor
  · simp [ContentExtractor.extract_paragraphs, h]
  · rfl

/-- Witness for C7 at a concrete page with one 51-character paragraph
(kept) and one 50-character paragraph (dropped: the threshold is
strict). -/
theorem c7_extract_success_witness :
    ContentExtractor.extract_paragraphs
      (fun _ => some [String.mk (List.replicate 51 'a'),
                      String.mk (List.replicate 50 'b')]) "http://x" =
      String.mk (List.replicate 51 'a') := by
  have h := (c7_extract_success
    (fun _ => some [String.mk (List.replicate 51 'a'),
                    String.mk (List.replicate 50 'b')]) "http://x"
    [String.mk (List.replicate 51 'a'), String.mk (List.replicate 50 'b')]
    rfl).1
  rw [h]
  decide

/-- C2 counterexample: with a judge that always fails and eleven input
hits that all carry a title and a url, `filter_relevant` returns eleven
results, exceeding `Config.MAX_RELEVANT_RESULTS = 10` — the code never
truncates, so the claimed cap fails on the judge-failure path. -/
theorem c2_cap_counterexample :
    ¬ ((LLMFilter.filter_relevant (fun _ _ => none) "topic"
        (List.replicate 11 ⟨some "t", some "u", none, none⟩)).length ≤
      Config.MAX_RELEVANT_RESULTS) := by
  decide

/-- C2 (amended): the code enforces no cap itself.  The output length
equals the judge's result count when the judge call succeeds (so it is at
most `MAX_RELEVANT_RESULTS` only insofar as the judge obeys its prompt),
and equals the number of input hits having both a truthy title and url
when the judge call fails — which may exceed the configured maximum. -/
theorem c2_length_follows_judge
    (judge : String → List RelevantResult → Option (List RelevantResult))
    (topic : String) (hits : List SearchHit) :
    (∀ parsed, judge topic (LLMFilter.minimalResults hits) = some parsed →
      (LLMFilter.filter_relevant judge topic hits).length = parsed.length) ∧
    (judge topic (LLMFilter.minimalResults hits) = none →
      (LLMFilter.filter_relevant judge topic hits).length =
        (LLMFilter.minimalResults hits).length) := by
  constructor
  · intro parsed hp
    simp [LLMFilter.filter_relevant, hp]
  · intro hn
    simp [LLMFilter.filter_relevant, hn]

/-- Witness for C2 (amended) at a succeeding judge and at a failing
judge. -/
theorem c2_length_follows_judge_witness :
    (LLMFilter.filter_relevant (fun _ _ => some [⟨"a", "b"⟩]) "t" []).length =
      1 ∧
    (LLMFilter.filter_relevant (fun _ _ => none) "t"
      [⟨some "a", some "b", none, none⟩]).length = 1 :=
  ⟨(c2_length_follows_judge (fun _ _ => some [⟨"a", "b"⟩]) "t" []).1
      [⟨"a", "b"⟩] rfl,
   (c2_length_follows_judge (fun _ _ => none) "t"
      [⟨some "a", some "b", none, none⟩]).2 rfl⟩

/-- C3: `filter_relevant` never raises (it is a total function); whenever
the judge call fails it returns exactly the minimal `{title, url}`
projection of its input — those input hits having both a truthy title and
url, in input order, with their title and url contents unchanged and
nothing truncated. -/
theorem c3_judge_failure_passthrough
    (judge : String → List RelevantResult → Option (List RelevantResult))
    (topic : String) (hits : List SearchHit)
    (h : judge topic (LLMFilter.minimalResults hits) = none) :
    LLMFilter.filter_relevant judge topic hits =
      (LLMFilter.minimalResults hits).map LLMFilter.relevantToHit ∧
    (LLMFilter.filter_relevant judge topic hits).map
        (fun x => (x.title, x.url)) =
      (hits.filter (fun r => truthy r.title && truthy r.url)).map
        (fun r => (some (r.title.getD ""), some (r.url.getD ""))) := by
  have hfr : LLMFilter.filter_relevant judge topic hits =
      (LLMFilter.minimalResults hits).map LLMFilter.relevantToHit := by
    simp [LLMFilter.filter_relevant, h]
  refine ⟨hfr, ?_⟩
  rw [hfr]
  simp [LLMFilter.minimalResults, LLMFilter.relevantToHit, List.map_map,
    Function.comp]

/-- Witness for C3 with an always-failing judge on a two-hit list (one
hit lacking a url, one complete). -/
theorem c3_judge_failure_passthrough_witness :
    (LLMFilter.filter_relevant (fun _ _ => none) "t"
        [⟨some "a", none, none, none⟩, ⟨some "b", some "u", none, none⟩] =
      (LLMFilter.minimalResults
        [⟨some "a", none, none, none⟩,
         ⟨some "b", some "u", none, none⟩]).map LLMFilter.relevantToHit) ∧
    (LLMFilter.filter_relevant (fun _ _ => none) "t"
        [⟨some "a", none, none, none⟩,
         ⟨some "b", some "u", none, none⟩]).map (fun x => (x.title, x.url)) =
      ([⟨some "a", none, none, none⟩,
        (⟨some "b", some "u", none, none⟩ : SearchHit)].filter
          (fun r => truthy r.title && truthy r.url)).map
        (fun r => (some (r.title.getD ""), some (r.url.getD ""))) :=
  c3_judge_failure_passthrough (fun _ _ => none) "t"
    [⟨some "a", none, none, none⟩, ⟨some "b", some "u", none, none⟩] rfl

/-- C9: the minimal projection excludes every hit whose title or url is
missing or the empty string, so every entry of the judge payload has a
non-empty title and url; and on the degraded (judge-failure) path every
returned hit carries a present, non-empty title and url, so no hit with
an empty url reaches the extraction stage on that path. -/
theorem c9_empty_fields_excluded
    (judge : String → List RelevantResult → Option (List RelevantResult))
    (topic : String) (hits : List SearchHit) :
    (∀ r ∈ LLMFilter.minimalResults hits, r.title ≠ "" ∧ r.url ≠ "") ∧
    (judge topic (LLMFilter.minimalResults hits) = none →
      ∀ h ∈ LLMFilter.filter_relevant judge topic hits,
        (∃ t, h.title = some t ∧ t ≠ "") ∧
        (∃ u, h.url = some u ∧ u ≠ "")) := by
  have truthy_getD : ∀ {o : Option String}, truthy o = true → o.getD "" ≠ "" := by
    intro o h
    cases o with
    | none => simp [truthy] at h
    | some s => simpa [truthy] using h
  have hmin : ∀ r ∈ LLMFilter.minimalResults hits, r.title ≠ "" ∧ r.url ≠ "" := by
    intro r hr
    unfold LLMFilter.minimalResults at hr
    rw [List.mem_map] at hr
    obtain ⟨x, hx, rfl⟩ := hr
    rw [List.mem_filter] at hx
    obtain ⟨-, hcond⟩ := hx
    rw [Bool.and_eq_true] at hcond
    exact ⟨truthy_getD hcond.1, truthy_getD hcond.2⟩
  refine ⟨hmin, fun hn h hh => ?_⟩
  have hfr : LLMFilter.filter_relevant judge topic hits =
      (LLMFilter.minimalResults hits).map LLMFilter.relevantToHit := by
    simp [LLMFilter.filter_relevant, hn]
  rw [hfr, List.mem_map] at hh
  obtain ⟨r, hr, rfl⟩ := hh
  obtain ⟨hrt, hru⟩ := hmin r hr
  exact ⟨⟨r.title, rfl, hrt⟩, ⟨r.url, rfl, hru⟩⟩

/-- Witness for C9 on a list containing a complete hit, a hit with an
empty title, and a hit with a missing url, with a failing judge. -/
theorem c9_empty_fields_excluded_witness :
    ((⟨"good", "http://g"⟩ : RelevantResult).title ≠ "" ∧
     (⟨"good", "http://g"⟩ : RelevantResult).url ≠ "") ∧
    ((∃ t, (LLMFilter.relevantToHit ⟨"good", "http://g"⟩).title = some t ∧
        t ≠ "") ∧
     (∃ u, (LLMFilter.relevantToHit ⟨"good", "http://g"⟩).url = some u ∧
        u ≠ "")) :=
  ⟨(c9_empty_fields_excluded (fun _ _ => none) "t"
      [⟨some "good", some "http://g", none, none⟩,
       ⟨some "", some "u", none, none⟩,
       ⟨some "t2", none, none, none⟩]).1 ⟨"good", "http://g"⟩ (by decide),
   (c9_empty_fields_excluded (fun _ _ => none) "t"
      [⟨some "good", some "http://g", none, none⟩,
       ⟨some "", some "u", none, none⟩,
       ⟨some "t2", none, none, none⟩]).2 rfl
      (LLMFilter.relevantToHit ⟨"good", "http://g"⟩) (by decide)⟩

/-- For a non-empty hit list, `format_markdown` is the header followed by
the three section lines of each enumerated hit, in hit order. -/
theorem format_markdown_of_ne_nil (topic : String) (results : List SearchHit)
    (h : results ≠ []) :
    ContentSearchService.format_markdown topic results =
      String.intercalate "\n"
        (ContentSearchService.headerLines topic ++
          ((results.enumFrom 1).map
            (fun p => ContentSearchService.sectionLines p.1 p.2)).flatten) := by
  have hb : results.isEmpty = false := by
    cases results with
    | nil => exact absurd rfl h
    | cons x xs => rfl
  simp only [ContentSearchService.format_markdown, hb, Bool.false_eq_true,
    if_false]
  rw [foldl_append_flatten]

/-- C5: the extraction loop changes no hit's title, url or snippet and
keeps the list order and length (it only adds the `extracted_content`
field); and for the resulting non-empty list the rendered document is the
header followed by exactly one numbered section per hit, in the same
order. -/
theorem c5_order_preserved (fetch : String → Option (List String))
    (topic : String) (hits : List SearchHit) :
    (ContentSearchService.extractLoop fetch hits).map
        (fun h => (h.title, h.url, h.snippet)) =
      hits.map (fun h => (h.title, h.url, h.snippet)) ∧
    (hits ≠ [] →
      ContentSearchService.format_markdown topic
          (ContentSearchService.extractLoop fetch hits) =
        String.intercalate "\n"
          (ContentSearchService.headerLines topic ++
            (((ContentSearchService.extractLoop fetch hits).enumFrom 1).map
              (fun p => ContentSearchService.sectionLines p.1 p.2)).flatten)) := by
  constructor
  · simp [ContentSearchService.extractLoop, List.map_map, Function.comp]
  · intro hne
    have hne2 : ContentSearchService.extractLoop fetch hits ≠ [] := by
      simp [ContentSearchService.extractLoop]
      exact hne
    exact format_markdown_of_ne_nil topic _ hne2

/-- Witness for C5 on a one-hit list with a failing page fetcher. -/
theorem c5_order_preserved_witness :
    (ContentSearchService.extractLoop (fun _ => none)
        [⟨some "a", some "u", none, none⟩]).map
        (fun h => (h.title, h.url, h.snippet)) =
      [(⟨some "a", some "u", none, none⟩ : SearchHit)].map
        (fun h => (h.title, h.url, h.snippet)) ∧
    ContentSearchService.format_markdown "t"
        (ContentSearchService.extractLoop (fun _ => none)
          [⟨some "a", some "u", none, none⟩]) =
      String.intercalate "\n"
        (ContentSearchService.headerLines "t" ++
          (((ContentSearchService.extractLoop (fun _ => none)
              [⟨some "a", some "u", none, none⟩]).enumFrom 1).map
            (fun p => ContentSearchService.sectionLines p.1 p.2)).flatten) :=
  ⟨(c5_order_preserved (fun _ => none) "t"
      [⟨some "a", some "u", none, none⟩]).1,
   (c5_order_preserved (fun _ => none) "t"
      [⟨some "a", some "u", none, none⟩]).2 (by simp)⟩

/-- C6: on an empty hit list the formatter yields exactly the header
followed by the fixed "No relevant results found." sentinel and renders
no result sections; and for every hit list the document begins with the
header block that names the topic, with "Not specified" substituted when
the topic is the empty string. -/
theorem c6_empty_sentinel_and_header (topic : String) :
    ContentSearchService.format_markdown topic [] =
      String.intercalate "\n"
        ["# Search and Extracted Content\n",
         "**Topic:** " ++ (if topic = "" then "Not specified" else topic) ++
           "\n",
         "## Relevant Search Results\n",
         "No relevant results found."] ∧
    ∀ results : List SearchHit, ∃ rest : List String,
      ContentSearchService.format_markdown topic results =
        String.intercalate "\n"
          (["# Search and Extracted Content\n",
            "**Topic:** " ++ (if topic = "" then "Not specified" else topic) ++
              "\n",
            "## Relevant Search Results\n"] ++ rest) := by
  constructor
  · rfl
  · intro results
    cases hres : results with
    | nil => exact ⟨["No relevant results found."], rfl⟩
    | cons x xs =>
        refine ⟨(((x :: xs).enumFrom 1).map
          (fun p => ContentSearchService.sectionLines p.1 p.2)).flatten, ?_⟩
        exact format_markdown_of_ne_nil topic (x :: xs) (by simp)

/-- C10: `_format_markdown` is total on hits with missing fields, and
each default is independent: for every hit lacking the title key the
section title renders "No Title" (whatever the url and content are), for
every hit lacking the url key the link target is "#" (whatever the title
and content are), and whenever `extracted_content` is missing, `None` or
the empty string the fenced block shows the "No content extracted."
sentinel (whatever the title and url are). -/
theorem c10_formatter_defaults (topic : String) (r : SearchHit) :
    (r.title = none →
      ContentSearchService.format_markdown topic [r] =
        String.intercalate "\n"
          (ContentSearchService.headerLines topic ++
            ["### Result 1: [No Title](" ++ r.url.getD "#" ++ ")\n",
             "**Extracted Content:**\n",
             "```\n" ++ ContentSearchService.displayContent r ++ "\n```\n"])) ∧
    (r.url = none →
      ContentSearchService.format_markdown topic [r] =
        String.intercalate "\n"
          (ContentSearchService.headerLines topic ++
            ["### Result 1: [" ++ r.title.getD "No Title" ++ "](#)\n",
             "**Extracted Content:**\n",
             "```\n" ++ ContentSearchService.displayContent r ++ "\n```\n"])) ∧
    (r.extracted_content = none ∨ r.extracted_content = some none ∨
        r.extracted_content = some (some "") →
      ContentSearchService.format_markdown topic [r] =
        String.intercalate "\n"
          (ContentSearchService.headerLines topic ++
            ["### Result 1: [" ++ r.title.getD "No Title" ++ "](" ++
               r.url.getD "#" ++ ")\n",
             "**Extracted Content:**\n",
             "```\nNo content extracted.\n```\n"])) := by
  have h0 : ContentSearchService.format_markdown topic [r] =
      String.intercalate "\n"
        (ContentSearchService.headerLines topic ++
          ContentSearchService.sectionLines 1 r) := rfl
  refine ⟨fun ht => ?_, fun hu => ?_, fun he => ?_⟩
  · have hs : ContentSearchService.sectionLines 1 r =
        ["### Result 1: [No Title](" ++ r.url.getD "#" ++ ")\n",
         "**Extracted Content:**\n",
         "```\n" ++ ContentSearchService.displayContent r ++ "\n```\n"] := by
      simp only [ContentSearchService.sectionLines]
      rw [ht]
      rfl
    rw [h0, hs]
  · have hs : ContentSearchService.sectionLines 1 r =
        ["### Result 1: [" ++ r.title.getD "No Title" ++ "](#)\n",
         "**Extracted Content:**\n",
         "```\n" ++ ContentSearchService.displayContent r ++ "\n```\n"] := by
      simp only [ContentSearchService.sectionLines]
      rw [hu]
      simp only [String.append_assoc]
      rfl
    rw [h0, hs]
  · have hd : ContentSearchService.displayContent r = "No content extracted." := by
      rcases he with h | h | h <;> simp [ContentSearchService.displayContent, h]
    have hs : ContentSearchService.sectionLines 1 r =
        ["### Result 1: [" ++ r.title.getD "No Title" ++ "](" ++
           r.url.getD "#" ++ ")\n",
         "**Extracted Content:**\n",
         "```\nNo content extracted.\n```\n"] := by
      simp only [ContentSearchService.sectionLines]
      rw [hd]
      rfl
    rw [h0, hs]

/-- Witness for C10 on three hits, each degenerate in exactly one field:
one lacking only its title key, one lacking only its url key, and one
lacking only its extracted content. -/
theorem c10_formatter_defaults_witness :
    ContentSearchService.format_markdown "t"
        [⟨none, some "http://u", none, some (some "body text")⟩] =
      String.intercalate "\n"
        (ContentSearchService.headerLines "t" ++
          ["### Result 1: [No Title](http://u)\n",
           "**Extracted Content:**\n", "```\nbody text\n```\n"]) ∧
    ContentSearchService.format_markdown "t"
        [⟨some "T", none, none, some (some "body text")⟩] =
      String.intercalate "\n"
        (ContentSearchService.headerLines "t" ++
          ["### Result 1: [T](#)\n",
           "**Extracted Content:**\n", "```\nbody text\n```\n"]) ∧
    ContentSearchService.format_markdown "t"
        [⟨some "T", some "http://u", none, none⟩] =
      String.intercalate "\n"
        (ContentSearchService.headerLines "t" ++
          ["### Result 1: [T](http://u)\n",
           "**Extracted Content:**\n", "```\nNo content extracted.\n```\n"]) :=
  ⟨(c10_formatter_defaults "t"
      ⟨none, some "http://u", none, some (some "body text")⟩).1 rfl,
   (c10_formatter_defaults "t"
      ⟨some "T", none, none, some (some "body text")⟩).2.1 rfl,
   (c10_formatter_defaults "t"
      ⟨some "T", some "http://u", none, none⟩).2.2 (Or.inl rfl)⟩
